import Mathlib

/-!
Verification of the market-session-clock logic of `src/app.py`.

The functions `calculate_next_market_open`, `calculate_minutes_to_next_open`,
`format_time_duration` and `get_session_times` are embedded shallowly:
minutes are `Int` (Python ints), optional values are `Option`, the dict
`MARKET_SCHEDULES` is a lookup function returning `Option Schedule`, and the
`try/except` of `get_session_times` is modelled by an `Except` input standing
for the fallible reading of the current time.
-/

namespace App

/-- One entry of `MARKET_SCHEDULES`: open/close times of day (hour, minute),
trading weekdays (Python `datetime.weekday()` convention: Monday = 0 …
Sunday = 6) and a display name. -/
structure Schedule where
  openH : Nat
  openM : Nat
  closeH : Nat
  closeM : Nat
  days : List Nat
  name : String

/-- `MARKET_SCHEDULES["NY"]`. -/
def nySchedule : Schedule :=
  { openH := 9, openM := 30, closeH := 16, closeM := 0,
    days := [0, 1, 2, 3, 4], name := "NYSE" }

/-- `MARKET_SCHEDULES["London"]`. -/
def londonSchedule : Schedule :=
  { openH := 3, openM := 0, closeH := 11, closeM := 30,
    days := [0, 1, 2, 3, 4], name := "LSE" }

/-- `MARKET_SCHEDULES["Asian"]`. -/
def asianSchedule : Schedule :=
  { openH := 19, openM := 0, closeH := 1, closeM := 0,
    days := [6, 0, 1, 2, 3, 4], name := "Tokyo" }

/-- The dict `MARKET_SCHEDULES`, as a lookup: `.get(name)` in the source. -/
def MARKET_SCHEDULES (market_name : String) : Option Schedule :=
  if market_name = "NY" then some nySchedule
  else if market_name = "London" then some londonSchedule
  else if market_name = "Asian" then some asianSchedule
  else none

def WEEKEND_TO_MONDAY : Int := 3
def SATURDAY_TO_MONDAY : Int := 2
def SUNDAY_TO_MONDAY : Int := 1
def NEXT_TRADING_DAY : Int := 1

/-- `calculate_minutes_to_next_open` from `src/app.py` (lines 183-205).
The Python indexes `MARKET_SCHEDULES[market_name]` directly (a `KeyError`
for an unknown name); the embedding returns `none` in that unreachable
case. -/
def calculate_minutes_to_next_open (market_name : String) (weekday : Nat)
    (current_minutes open_minutes : Int) : Option Int :=
  match MARKET_SCHEDULES market_name with
  | none => none
  | some schedule =>
    -- If it's a trading day and before open
    if weekday ∈ schedule.days ∧ current_minutes < open_minutes then
      some (open_minutes - current_minutes)
    else
      -- Days until next trading day
      if weekday = 4 then  -- Friday
        some (WEEKEND_TO_MONDAY * 1440 + open_minutes - current_minutes)
      else if weekday = 5 then  -- Saturday
        some (SATURDAY_TO_MONDAY * 1440 + open_minutes - current_minutes)
      else if weekday = 6 then  -- Sunday
        if market_name = "Asian" ∧ current_minutes < open_minutes then
          some (open_minutes - current_minutes)  -- Opens Sunday evening
        else
          some (SUNDAY_TO_MONDAY * 1440 + open_minutes - current_minutes)
      else  -- Monday-Thursday
        some (NEXT_TRADING_DAY * 1440 + open_minutes - current_minutes)

/-- `calculate_next_market_open` from `src/app.py` (lines 142-181):
returns `(is_open, minutes_until_next_open)`. -/
def calculate_next_market_open (market_name : String)
    (current_hour current_minute current_weekday : Nat) : Bool × Option Int :=
  match MARKET_SCHEDULES market_name with
  | none => (false, none)
  | some schedule =>
    let open_minutes : Int := schedule.openH * 60 + schedule.openM
    let close_minutes : Int := schedule.closeH * 60 + schedule.closeM
    let current_minutes : Int := current_hour * 60 + current_minute
    -- Special handling for Asian market (crosses midnight)
    if market_name = "Asian" then
      if current_weekday = 6 ∧ open_minutes ≤ current_minutes then
        (true, none)  -- Sunday evening
      else if current_weekday < 5 ∧
          (current_minutes ≤ close_minutes ∨ open_minutes ≤ current_minutes) then
        (true, none)  -- Monday-Friday
      else
        (false, calculate_minutes_to_next_open market_name current_weekday
          current_minutes open_minutes)
    else
      -- Standard markets (NY, London)
      if current_weekday ∈ schedule.days ∧
          open_minutes ≤ current_minutes ∧ current_minutes ≤ close_minutes then
        (true, none)
      else
        (false, calculate_minutes_to_next_open market_name current_weekday
          current_minutes open_minutes)

/-- Python's `f"{n:02d}"` for the non-negative values it is applied to. -/
def pad2 (n : Int) : String :=
  if n < 10 ∧ 0 ≤ n then "0" ++ toString n else toString n

/-- `format_time_duration` from `src/app.py` (lines 242-253). -/
def format_time_duration : Option Int → String
  | none => "Now"
  | some minutes =>
    if minutes ≤ 0 then "Now"
    else
      let days := minutes / 1440
      let hours := (minutes % 1440) / 60
      let mins := minutes % 60
      if 0 < days then
        toString days ++ "d " ++ pad2 hours ++ ":" ++ pad2 mins
      else
        pad2 hours ++ ":" ++ pad2 mins

/-- The per-market body of the loop in `get_session_times`: the display
string and the `*_active` flag computed for one market. -/
def session_entry (market : String) (h mi w : Nat) : String × Bool :=
  let r := calculate_next_market_open market h mi w
  if r.1 then ("Now", true) else (format_time_duration r.2, false)

/-- The result dict of `get_session_times`, with the six keys
`NY`, `London`, `Asian`, `NY_active`, `London_active`, `Asian_active`. -/
structure SessionTimes where
  NY : String
  London : String
  Asian : String
  NY_active : Bool
  London_active : Bool
  Asian_active : Bool

/-- The fallback dict returned by the `except` branch of
`get_session_times`. -/
def sessionFallback : SessionTimes :=
  { NY := "Error", London := "Error", Asian := "Error",
    NY_active := false, London_active := false, Asian_active := false }

/-- `get_session_times` from `src/app.py` (lines 207-240). The call
`datetime.now()` and any failure inside the `try` block are modelled by the
`Except` argument: `.ok (h, mi, w)` is a successfully read current time,
`.error e` a raised exception (the remaining body of the `try` block is
total in the embedding, so the time read is the only failure point). -/
def get_session_times (now : Except String (Nat × Nat × Nat)) : SessionTimes :=
  match now with
  | .error _ => sessionFallback
  | .ok (h, mi, w) =>
    let ny := session_entry "NY" h mi w
    let lon := session_entry "London" h mi w
    let asia := session_entry "Asian" h mi w
    { NY := ny.1, London := lon.1, Asian := asia.1,
      NY_active := ny.2, London_active := lon.2, Asian_active := asia.2 }

/-- Advancing a (weekday, minutes-of-day) instant by `t` minutes. -/
def advance (weekday minutes t : Nat) : Nat × Nat :=
  ((weekday + (minutes + t) / 1440) % 7, (minutes + t) % 1440)

/-- Whether `calculate_next_market_open` reports `market` open at weekday
`w` and `m` minutes after local midnight. -/
def openAt (market : String) (w m : Nat) : Bool :=
  (calculate_next_market_open market (m / 60) (m % 60) w).1

/-- The trading-day set of a configured market (empty for an unknown one). -/
def daysOf (name : String) : List Nat :=
  (MARKET_SCHEDULES name).elim [] Schedule.days

/-- The open time-of-day of a configured market, in minutes after local
midnight (`0` for an unknown one). -/
def openMinutesOf (name : String) : Nat :=
  (MARKET_SCHEDULES name).elim 0 (fun s => s.openH * 60 + s.openM)

/-- The close time-of-day of a configured market, in minutes after local
midnight (`0` for an unknown one). -/
def closeMinutesOf (name : String) : Nat :=
  (MARKET_SCHEDULES name).elim 0 (fun s => s.closeH * 60 + s.closeM)

/-- Claim C1, evaluated at the failing input. On Saturday 00:00 the Asian
market is reported closed with `minutes_until_open = 4020`, which points at
Monday 19:00; yet only 2580 minutes later, at Sunday 19:00, the function
already reports the market open (`advance 5 0 2580 = (6, 1140)` is Sunday
at 19:00). So the returned offset is not the minimal non-negative offset to
the next reported-open instant: the code skips the Sunday-evening open it
itself recognises. -/
theorem asian_saturday_minutes_overshoot :
    calculate_next_market_open "Asian" 0 0 5 = (false, some 4020) ∧
    advance 5 0 2580 = (6, 1140) ∧
    openAt "Asian" 6 1140 = true ∧
    (2580 : Nat) < 4020 := by decide

/-- Claim C2, counterexample. Sunday (weekday 6) is in the Asian trading-day
set and 00:30 is a time-of-day ≤ the close time (01:00), yet
`calculate_next_market_open` reports the market closed there, contradicting
the claim that every trading-day input with time ≥ open or ≤ close is
reported open. -/
theorem asian_sunday_0030_reported_closed :
    (6 ∈ asianSchedule.days) ∧
    (0 * 60 + 30 ≤ asianSchedule.closeH * 60 + asianSchedule.closeM) ∧
    calculate_next_market_open "Asian" 0 30 6 = (false, some 1110) := by decide

set_option synthInstance.maxSize 2000 in
set_option synthInstance.maxHeartbeats 2000000 in
set_option maxHeartbeats 8000000 in
/-- Claim C2 as amended: the Asian market is reported open on Monday-Friday
whenever the time-of-day is ≤ the close time or ≥ the open time, and on
Sunday only when the time-of-day is ≥ the open time; in particular 00:30 is
reported open on Monday-Friday (but not on Sunday). -/
theorem asian_open_amended :
    ∀ h < 24, ∀ mi < 60, ∀ w < 7,
      ((w < 5 ∧ (h * 60 + mi ≤ closeMinutesOf "Asian" ∨
          openMinutesOf "Asian" ≤ h * 60 + mi)) ∨
       (w = 6 ∧ openMinutesOf "Asian" ≤ h * 60 + mi)) →
      calculate_next_market_open "Asian" h mi w = (true, none) := by decide

/-- Claim C2 witness: `asian_open_amended` applied at Monday 00:30. -/
theorem asian_open_amended_witness :
    calculate_next_market_open "Asian" 0 30 1 = (true, none) :=
  asian_open_amended 0 (by decide) 30 (by decide) 1 (by decide) (by decide)

/-- Claim C3, counterexample. The input exactly at the close instant
(01:00) on Sunday, a weekday in the Asian trading-day set, is reported
closed, contradicting the claim that the session interval is inclusive of
the close endpoint on every trading day. -/
theorem asian_sunday_close_endpoint_closed :
    (6 ∈ asianSchedule.days) ∧
    (1 * 60 + 0 = asianSchedule.closeH * 60 + asianSchedule.closeM) ∧
    (calculate_next_market_open "Asian" 1 0 6).1 = false := by decide

set_option synthInstance.maxSize 2000 in
set_option synthInstance.maxHeartbeats 2000000 in
set_option maxHeartbeats 8000000 in
/-- Claim C3 as amended: for NY and London the claim holds as stated
(trading weekday and open ≤ time ≤ close, endpoints included, gives
`(true, none)`); for the Asian market it holds on trading weekdays other
than Sunday (time ≤ close or time ≥ open, endpoints included) and on
Sunday only for time ≥ open — a Sunday input with time ≤ close, the close
instant included, is reported closed. -/
theorem open_within_session_amended :
    ∀ h < 24, ∀ mi < 60, ∀ w < 7,
      (w ∈ daysOf "NY" ∧ openMinutesOf "NY" ≤ h * 60 + mi ∧
          h * 60 + mi ≤ closeMinutesOf "NY" →
        calculate_next_market_open "NY" h mi w = (true, none)) ∧
      (w ∈ daysOf "London" ∧ openMinutesOf "London" ≤ h * 60 + mi ∧
          h * 60 + mi ≤ closeMinutesOf "London" →
        calculate_next_market_open "London" h mi w = (true, none)) ∧
      ((w ∈ daysOf "Asian" ∧ w ≠ 6 ∧ (h * 60 + mi ≤ closeMinutesOf "Asian" ∨
          openMinutesOf "Asian" ≤ h * 60 + mi)) ∨
        (w = 6 ∧ openMinutesOf "Asian" ≤ h * 60 + mi) →
        calculate_next_market_open "Asian" h mi w = (true, none)) := by decide

/-- Claim C3 witness: `open_within_session_amended` applied at Monday 09:30,
exactly the NY open instant. -/
theorem open_within_session_amended_witness :
    calculate_next_market_open "NY" 9 30 0 = (true, none) :=
  (open_within_session_amended 9 (by decide) 30 (by decide) 0 (by decide)).1
    (by decide)

set_option synthInstance.maxSize 2000 in
set_option synthInstance.maxHeartbeats 2000000 in
set_option maxHeartbeats 8000000 in
/-- Claim C4: for each configured market and every valid input time,
`minutes_until_open` is present (`isSome`) exactly when `is_open` is
`false`. -/
theorem minutes_present_iff_closed :
    ∀ name ∈ ["NY", "London", "Asian"], ∀ h < 24, ∀ mi < 60, ∀ w < 7,
      ((calculate_next_market_open name h mi w).2.isSome = true ↔
        (calculate_next_market_open name h mi w).1 = false) := by decide

/-- Claim C4 witness: `minutes_present_iff_closed` at NY on Sunday noon. -/
theorem minutes_present_iff_closed_witness :
    (calculate_next_market_open "NY" 12 0 6).2.isSome = true ↔
      (calculate_next_market_open "NY" 12 0 6).1 = false :=
  minutes_present_iff_closed "NY" (by decide) 12 (by decide) 0 (by decide)
    6 (by decide)

set_option synthInstance.maxSize 2000 in
set_option synthInstance.maxHeartbeats 2000000 in
set_option maxHeartbeats 8000000 in
/-- Claim C5: on a weekday outside the trading-day set the returned
`minutes_until_open` is present and strictly positive, and advancing the
input instant by that many minutes lands exactly at the market's open
time-of-day on a weekday inside the trading-day set. -/
theorem nontrading_day_next_open :
    ∀ name ∈ ["NY", "London", "Asian"], ∀ h < 24, ∀ mi < 60, ∀ w < 7,
      w ∉ daysOf name →
      (calculate_next_market_open name h mi w).2.isSome = true ∧
      0 < ((calculate_next_market_open name h mi w).2.getD 0) ∧
      (advance w (h * 60 + mi)
        ((calculate_next_market_open name h mi w).2.getD 0).toNat).2 =
        openMinutesOf name ∧
      (advance w (h * 60 + mi)
        ((calculate_next_market_open name h mi w).2.getD 0).toNat).1 ∈
        daysOf name := by decide

/-- Claim C5 witness: `nontrading_day_next_open` at NY on Saturday noon. -/
theorem nontrading_day_next_open_witness :
    (calculate_next_market_open "NY" 12 0 5).2.isSome = true ∧
    0 < ((calculate_next_market_open "NY" 12 0 5).2.getD 0) ∧
    (advance 5 (12 * 60 + 0)
      ((calculate_next_market_open "NY" 12 0 5).2.getD 0).toNat).2 =
      openMinutesOf "NY" ∧
    (advance 5 (12 * 60 + 0)
      ((calculate_next_market_open "NY" 12 0 5).2.getD 0).toNat).1 ∈
      daysOf "NY" :=
  nontrading_day_next_open "NY" (by decide) 12 (by decide) 0 (by decide)
    5 (by decide) (by decide)

/-- Claim C6: `get_session_times` is total. A failure while reading the
current time (the modelled failure point of the `try` block) yields the
fallback dict mapping each market to `"Error"` with every `*_active` flag
`false`; a successful read yields, for each of the three markets, the
display string and the active flag wired to `calculate_next_market_open`
and `format_time_duration`. -/
theorem get_session_times_spec :
    (∀ e, get_session_times (.error e) = sessionFallback) ∧
    (∀ h mi w, get_session_times (.ok (h, mi, w)) =
      { NY := if (calculate_next_market_open "NY" h mi w).1 then "Now"
              else format_time_duration (calculate_next_market_open "NY" h mi w).2,
        London := if (calculate_next_market_open "London" h mi w).1 then "Now"
              else format_time_duration (calculate_next_market_open "London" h mi w).2,
        Asian := if (calculate_next_market_open "Asian" h mi w).1 then "Now"
              else format_time_duration (calculate_next_market_open "Asian" h mi w).2,
        NY_active := (calculate_next_market_open "NY" h mi w).1,
        London_active := (calculate_next_market_open "London" h mi w).1,
        Asian_active := (calculate_next_market_open "Asian" h mi w).1 }) := by
  refine ⟨fun e => rfl, fun h mi w => ?_⟩
  simp only [get_session_times, session_entry]
  by_cases hNY : (calculate_next_market_open "NY" h mi w).1 <;>
    by_cases hL : (calculate_next_market_open "London" h mi w).1 <;>
    by_cases hA : (calculate_next_market_open "Asian" h mi w).1 <;>
    simp [hNY, hL, hA]

/-- Claim C6 witness: `get_session_times_spec` at a failed time read. -/
theorem get_session_times_spec_witness :
    get_session_times (.error "boom") = sessionFallback :=
  get_session_times_spec.1 "boom"

set_option synthInstance.maxSize 2000 in
set_option synthInstance.maxHeartbeats 2000000 in
set_option maxHeartbeats 8000000 in
/-- Claim C7: whenever a configured market is reported closed at a valid
input time, the returned `minutes_until_open` is present — an integer
number of whole minutes by the embedding's type — and never negative. -/
theorem minutes_nonnegative_when_closed :
    ∀ name ∈ ["NY", "London", "Asian"], ∀ h < 24, ∀ mi < 60, ∀ w < 7,
      (calculate_next_market_open name h mi w).1 = false →
      (calculate_next_market_open name h mi w).2.isSome = true ∧
      (0 : Int) ≤ (calculate_next_market_open name h mi w).2.getD 0 := by decide

/-- Claim C7 witness: `minutes_nonnegative_when_closed` at London on Monday
00:00, a closed instant. -/
theorem minutes_nonnegative_when_closed_witness :
    (calculate_next_market_open "London" 0 0 0).2.isSome = true ∧
    (0 : Int) ≤ (calculate_next_market_open "London" 0 0 0).2.getD 0 :=
  minutes_nonnegative_when_closed "London" (by decide) 0 (by decide)
    0 (by decide) 0 (by decide) (by decide)

/-- Claim C8: `format_time_duration` maps `none` and every non-positive
minute count to `"Now"`, and every positive minute count `m` to
`days ++ "d " ++ HH ++ ":" ++ MM` when `days = m / 1440` is positive and to
`HH ++ ":" ++ MM` otherwise, with `HH` the two-digit-padded
`(m % 1440) / 60` and `MM` the two-digit-padded `m % 60`; in particular
`0 ↦ "Now"`, `90 ↦ "01:30"` and `1500 ↦ "1d 01:00"`. -/
theorem format_time_duration_spec :
    format_time_duration none = "Now" ∧
    (∀ m : Int, m ≤ 0 → format_time_duration (some m) = "Now") ∧
    (∀ m : Int, 0 < m →
      format_time_duration (some m) =
        if 0 < m / 1440 then
          toString (m / 1440) ++ "d " ++ pad2 ((m % 1440) / 60) ++ ":" ++
            pad2 (m % 60)
        else pad2 ((m % 1440) / 60) ++ ":" ++ pad2 (m % 60)) ∧
    format_time_duration (some 0) = "Now" ∧
    format_time_duration (some 90) = "01:30" ∧
    format_time_duration (some 1500) = "1d 01:00" := by
  refine ⟨rfl, ?_, ?_, by decide, by decide, by decide⟩
  · intro m hm
    simp [format_time_duration, hm]
  · intro m hm
    simp [format_time_duration, not_le.mpr hm]

/-- Claim C8 witness: `format_time_duration_spec` applied to the negative
minute count `-5`. -/
theorem format_time_duration_spec_witness :
    format_time_duration (some (-5)) = "Now" :=
  format_time_duration_spec.2.1 (-5) (by decide)

/-- Claim C9: at exactly one minute before the open time-of-day, on any
weekday in the market's trading-day set, each configured market is
reported closed with `minutes_until_open = 1`. -/
theorem one_minute_before_open :
    ∀ name ∈ ["NY", "London", "Asian"], ∀ w < 7, w ∈ daysOf name →
      calculate_next_market_open name ((openMinutesOf name - 1) / 60)
        ((openMinutesOf name - 1) % 60) w = (false, some 1) := by decide

/-- Claim C9 witness: `one_minute_before_open` at NY on Monday (09:29). -/
theorem one_minute_before_open_witness :
    calculate_next_market_open "NY" ((openMinutesOf "NY" - 1) / 60)
      ((openMinutesOf "NY" - 1) % 60) 0 = (false, some 1) :=
  one_minute_before_open "NY" (by decide) 0 (by decide) (by decide)

/-- Claim C10: for any market name other than the three configured keys,
`calculate_next_market_open` returns `(false, none)` at every input — the
dict lookup yields nothing and the unknown market is silently reported
closed with no minutes value. -/
theorem unknown_market_closed_none (name : String)
    (h1 : name ≠ "NY") (h2 : name ≠ "London") (h3 : name ≠ "Asian")
    (h mi w : Nat) :
    calculate_next_market_open name h mi w = (false, none) := by
  unfold calculate_next_market_open MARKET_SCHEDULES
  simp [h1, h2, h3]

/-- Claim C10 witness: `unknown_market_closed_none` at the name `"Tokyo"`
(a display name, not a schedule key). -/
theorem unknown_market_closed_none_witness :
    calculate_next_market_open "Tokyo" 12 0 3 = (false, none) :=
  unknown_market_closed_none "Tokyo" (by decide) (by decide) (by decide)
    12 0 3

end App
